import Mathlib

/-!
Shallow embedding of the vertex-ai-rag-app repository's orchestration code,
with theorems checking the frozen claims against it.

Each Python source file gets its own namespace.  Fallible Python code is
embedded with `Except` (a raised exception is an `Except.error`); external
services (object store, managed RAG service) are modelled by explicit
environment records whose fields decide the outcome of each remote call,
and the network calls actually issued are collected in a trace list.
-/

namespace ProcessDocuments

/-!
Embedding of `src/process_documents.py`.

A PDF, as seen through `PyPDF2.PdfReader`, is a list of pages; extracting a
page's text either yields a string or raises, so a page is modelled as
`Except String String` (the error carries the exception message `str(e)`).
-/

/-- `path.lower().endswith(suffix)` over the characters of the path (the
suffix literals in the source are already lowercase). -/
def lowerEndsWith (path suffix : String) : Bool :=
  suffix.toList.isSuffixOf (path.toList.map Char.toLower)

/-- The page loop of `extract_text_from_pdf` (lines 44-47):
`text = ""` then for each page `text += page.extract_text() + "\n"`;
the first page whose extraction raises aborts the loop with that error. -/
def pdf_pages_text : String → List (Except String String) → Except String String
  | acc, [] => Except.ok acc
  | acc, p :: ps =>
    match p with
    | Except.error e => Except.error e
    | Except.ok t => pdf_pages_text (acc ++ t ++ "\n") ps

/-- `extract_text_from_pdf` (lines 35-52).  The whole body sits in a
`try/except Exception` whose handler RETURNS the string
`"Error extracting PDF text: " ++ str(e)`; hence the Python function has
return type `str` and never raises. -/
def extract_text_from_pdf (pages : List (Except String String)) : String :=
  match pdf_pages_text "" pages with
  | Except.ok t => t
  | Except.error e => "Error extracting PDF text: " ++ e

/-- `extract_text_from_docx` (lines 54-67): `docx.Document` either yields the
paragraph texts or raises; the handler returns the error string. -/
def extract_text_from_docx (doc : Except String (List String)) : String :=
  match doc with
  | Except.ok paras => String.intercalate "\n" paras
  | Except.error e => "Error extracting DOCX text: " ++ e

/-- Modelled from the spec: the Text Extractor contract of section 4.2,
`extract(bytes, declared_type) -> text | Error(ExtractionFailed)` — "if any
page extraction throws, the whole call fails with an error carrying the
underlying cause message".  Used only to compare the claimed behaviour with
the source's `extract_text_from_pdf`. -/
def extract_pdf_contract (pages : List (Except String String)) : Except String String :=
  pdf_pages_text "" pages

/-- What `process_file` (lines 138-181) writes to the object-store blob:
either the UTF-8 encoding of extracted text, or the file's raw bytes
uploaded unchanged via `upload_from_filename`. -/
inductive BlobContent
  | text (t : String)
  | raw (bytes : List Nat)
  deriving Repr, DecidableEq

/-- `process_file` (lines 138-181), restricted to its observable outcome:
the success flag and the content written to the blob (`none` when nothing
was uploaded).  `avail` is the module-level `PDF_DOCX_AVAILABLE` flag;
`pdfPages` / `docxParas` stand for what the extraction libraries would see
for this file's bytes. -/
def process_file (avail : Bool) (path : String) (content : List Nat)
    (pdfPages : List (Except String String)) (docxParas : Except String (List String)) :
    Bool × Option BlobContent :=
  if lowerEndsWith path ".pdf" then
    if avail then (true, some (BlobContent.text (extract_text_from_pdf pdfPages)))
    else (false, none)
  else if lowerEndsWith path ".docx" then
    if avail then (true, some (BlobContent.text (extract_text_from_docx docxParas)))
    else (false, none)
  else if lowerEndsWith path ".txt" || lowerEndsWith path ".md" then
    (true, some (BlobContent.raw content))
  else
    (false, none)

end ProcessDocuments

namespace StreamlitStandalone

/-- The upload dispatch of `main` in `src/streamlit_standalone.py`
(lines 395-416): the content handed to `upload_file_to_gcs` for one file.
PDF and DOCX mime types go through extraction (same extractor shape as
`ProcessDocuments`); every other type uploads `file_content` unchanged. -/
def content_to_upload (avail : Bool) (mimeType : String) (fileContent : List Nat)
    (pdfPages : List (Except String String)) (docxParas : Except String (List String)) :
    Option ProcessDocuments.BlobContent :=
  if mimeType = "application/pdf" then
    if avail then
      some (ProcessDocuments.BlobContent.text (ProcessDocuments.extract_text_from_pdf pdfPages))
    else none
  else if mimeType = "application/vnd.openxmlformats-officedocument.wordprocessingml.document" then
    if avail then
      some (ProcessDocuments.BlobContent.text (ProcessDocuments.extract_text_from_docx docxParas))
    else none
  else
    some (ProcessDocuments.BlobContent.raw fileContent)

end StreamlitStandalone

namespace CreateRagCorpus

/-- The batch slicing of `create_rag_corpus` (lines 110-114):
`for i in range(0, len(paths), 25): batch = paths[i:i + 25]`.
`range(0, n, 25)` iterates `(n + 24) / 25` times and the slice
`paths[i:i+25]` is `(paths.drop i).take 25`. -/
def importBatches (paths : List α) (bs : Nat) : List (List α) :=
  (List.range ((paths.length + bs - 1) / bs)).map (fun k => (paths.drop (k * bs)).take bs)

/-- The import loop body (lines 113-143): each batch is passed to
`rag.import_files`; on success `total_imported += len(batch)`, on exception
the handler prints and `continue`s, so the loop always proceeds to the next
batch.  `ok k` tells whether the import of batch number `k` (0-based)
succeeds.  Returns the batches actually submitted, in order, and the final
`total_imported`. -/
def importLoop (ok : Nat → Bool) : Nat → List (List String) → List (List String) × Nat
  | _, [] => ([], 0)
  | k, b :: rest =>
    let r := importLoop ok (k + 1) rest
    (b :: r.1, (if ok k then b.length else 0) + r.2)

/-- The whole import phase of `create_rag_corpus` for a list of locators:
slice into batches of 25, then run the loop. -/
def runImport (paths : List String) (ok : Nat → Bool) : List (List String) × Nat :=
  importLoop ok 0 (importBatches paths 25)

end CreateRagCorpus

namespace FastapiVertexRag

/-!
Embedding of `src/fastapi_vertex_rag.py`.

An `HTTPException(status_code, detail)` is modelled as `Except.error
(status, detail)`.  The object store and the managed RAG service are
modelled by environment records below.
-/

/-- `Path(name).suffix.lower()` as used at line 360: the final extension
including the dot, lowercased; empty when the name has no dot, only a
leading dot, or a trailing dot. -/
def fileExt (name : String) : String :=
  let rev := name.toList.reverse
  let afterDot := rev.takeWhile (fun c => c ≠ '.')
  if afterDot.length = rev.length then ""
  else if afterDot.length + 1 = rev.length then ""
  else if afterDot.isEmpty then ""
  else String.mk (('.' :: afterDot.reverse).map Char.toLower)

/-- `file_ext[1:].upper()` as used at line 398: drop the leading dot and
uppercase, character by character. -/
def extUpper (ext : String) : String :=
  String.mk ((ext.toList.drop 1).map Char.toUpper)

/-- One file of the multipart `files` parameter of `/upload`: its name and
the byte count of its content (line 368-369 reads the content only to take
its length). -/
structure InFile where
  filename : String
  size : Nat
  deriving Repr, DecidableEq

/-- A per-file record as built by `upload_documents` for `uploaded_files`
and `documents_store` (uuid and timestamps abstracted away). -/
structure DocRecord where
  filename : String
  fileSize : Nat
  fileType : String
  gcsPath : String
  corpusUpdated : Bool
  error : Option String
  deriving Repr, DecidableEq

/-- Environment of one `/upload` request: the configured bucket, the
timestamp prefix used for blob names, whether the bucket already exists,
and the outcome of each remote call.  `uploadErr f = some e` means
`upload_to_gcs` raises with message `e` for file `f`; `importErr p = some e`
means `rag.import_files` raises with message `e` for locator `p`. -/
structure Env where
  bucket : String
  ts : String
  bucketExists : Bool
  uploadErr : String → Option String
  importErr : String → Option String

/-- The locator returned by `upload_to_gcs` (lines 163-175):
`gs://{bucket}/documents/{timestamp}_{filename}`. -/
def gcsPath (env : Env) (filename : String) : String :=
  "gs://" ++ env.bucket ++ "/documents/" ++ env.ts ++ "_" ++ filename

/-- `import_document_to_corpus` (lines 214-233): calls `rag.import_files`
inside a `try/except Exception` that returns `True` on success and `False`
on any exception — it NEVER raises. -/
def import_document_to_corpus (importErr : Option String) : Bool :=
  importErr.isNone

/-- The per-file loop of `upload_documents` (lines 358-437).  Returns the
`uploaded_files` list and the final `corpus_updated` flag, or the
`HTTPException` that aborted the request.  In the source, the `try` block
around the import (lines 384-421) can only raise if
`import_document_to_corpus` raises, which it never does, so the `except`
branch at lines 423-437 (which would set `corpus_updated: False` and an
`error` field) is unreachable: the record is always built with
`corpus_updated: True` and the boolean returned by
`import_document_to_corpus` is bound to `import_result` and ignored. -/
def processFiles (env : Env) : List InFile → Except (Nat × String) (List DocRecord × Bool)
  | [] => Except.ok ([], false)
  | f :: rest =>
    let ext := fileExt f.filename
    if ext ∉ [".pdf", ".docx", ".txt", ".md"] then
      Except.error (400, "Unsupported file type: " ++ ext ++ ". Supported types: .pdf, .docx, .txt, .md")
    else if f.size = 0 then
      Except.error (400, "File " ++ f.filename ++ " is empty")
    else
      match env.uploadErr f.filename with
      | some e => Except.error (500, "Failed to upload " ++ f.filename ++ ": " ++ e)
      | none =>
        let gp := gcsPath env f.filename
        let _import_result := import_document_to_corpus (env.importErr gp)
        let record : DocRecord :=
          { filename := f.filename
            fileSize := f.size
            fileType := extUpper ext
            gcsPath := gp
            corpusUpdated := true
            error := none }
        match processFiles env rest with
        | Except.error e => Except.error e
        | Except.ok (recs, _) => Except.ok (record :: recs, true)

/-- The response body of a successful `/upload` call (`UploadResponse`). -/
structure UploadResponse where
  message : String
  uploadedFiles : List DocRecord
  bucketCreated : Bool
  corpusUpdated : Bool
  deriving Repr, DecidableEq

/-- `upload_documents` (lines 329-444): ensure bucket and corpus, process
every file, and assemble the response. -/
def upload_documents (env : Env) (files : List InFile) : Except (Nat × String) UploadResponse :=
  match processFiles env files with
  | Except.error e => Except.error e
  | Except.ok (recs, cu) =>
    Except.ok
      { message := "Successfully processed " ++ toString recs.length ++ " file(s)"
        uploadedFiles := recs
        bucketCreated := !env.bucketExists
        corpusUpdated := cu }

/-- A network call issued to the managed RAG / generation service. -/
inductive NetCall
  | retrievalQuery (corpus : String) (topK : Int) (threshold : Rat)
  | generateContent (boundCorpus : String)
  deriving Repr, DecidableEq

/-- Environment for query handling: outcome of the retrieval endpoint and
of the generation endpoint. -/
structure RagEnv where
  retrieval : String → String → Int → Rat → Except String (List String)
  generation : String → String → Except String String

/-- `perform_rag_query` (lines 235-288): first `rag.retrieval_query`, then
a `GenerativeModel` with a retrieval tool bound to the corpus and
`generate_content`; any exception becomes `HTTPException(500, "Query
failed: ...")`.  Returns the result together with the trace of network
calls actually issued. -/
def perform_rag_query (env : RagEnv) (corpus query : String) (topK : Int) (thr : Rat) :
    Except (Nat × String) (String × List String) × List NetCall :=
  match env.retrieval corpus query topK thr with
  | Except.error e =>
    (Except.error (500, "Query failed: " ++ e), [NetCall.retrievalQuery corpus topK thr])
  | Except.ok ctxs =>
    match env.generation corpus query with
    | Except.error e =>
      (Except.error (500, "Query failed: " ++ e),
       [NetCall.retrievalQuery corpus topK thr, NetCall.generateContent corpus])
    | Except.ok ans =>
      (Except.ok (ans, ctxs),
       [NetCall.retrievalQuery corpus topK thr, NetCall.generateContent corpus])

/-- The JSON body of `POST /query` (`QueryRequest`, lines 68-71): `query`
plus `top_k` and `distance_threshold`, for which NO bounds are declared —
any integer passes validation. -/
structure QueryRequest where
  query : String
  topK : Int
  distanceThreshold : Rat
  deriving Repr, DecidableEq

/-- Process-wide state touched by the endpoints: the in-memory
`documents_store`, the `current_corpus` name and the `corpus_info`
display name (lines 94-97). -/
structure AppState where
  documentsStore : List DocRecord
  currentCorpus : Option String
  corpusInfo : Option String
  deriving Repr, DecidableEq

/-- The response body of a successful `/query` call. -/
structure QueryResponse where
  query : String
  answer : String
  retrievalResults : List String
  corpusUsed : String
  deriving Repr, DecidableEq

/-- `query_documents` (lines 446-470): reject with 400 when there is no
corpus or the registry is empty, otherwise run `perform_rag_query` with the
request's parameters unchanged; the state is not mutated on any path.
Returns (result, network-call trace, state after the call). -/
def query_documents (env : RagEnv) (st : AppState) (req : QueryRequest) :
    Except (Nat × String) QueryResponse × List NetCall × AppState :=
  match st.currentCorpus with
  | none =>
    (Except.error (400, "No corpus available. Please upload documents first."), [], st)
  | some corpus =>
    if st.documentsStore = [] then
      (Except.error (400, "No documents uploaded yet"), [], st)
    else
      match perform_rag_query env corpus req.query req.topK req.distanceThreshold with
      | (Except.error e, tr) =>
        (Except.error (500, "Query processing failed: " ++ e.2), tr, st)
      | (Except.ok (ans, ctxs), tr) =>
        (Except.ok
          { query := req.query
            answer := ans
            retrievalResults := ctxs
            corpusUsed := corpus }, tr, st)

/-- Outcome of the `client.create_bucket` call inside
`create_bucket_if_not_exists`: success, a `Conflict` raised because another
caller created the bucket concurrently, or some other exception. -/
inductive CreateOutcome
  | ok
  | conflict
  | err (msg : String)
  deriving Repr, DecidableEq

/-- `create_bucket_if_not_exists` (lines 119-144) over a world listing the
buckets that exist.  `get_bucket` succeeds iff the name is in the world
(otherwise `NotFound` is caught and creation proceeds); `Conflict` from the
create call is caught and reported as "already exists" (`False`); any other
exception becomes `HTTPException(500, ...)`.  Returns the `bool(created)`
result together with the world after the call. -/
def create_bucket_if_not_exists (world : List String) (name : String)
    (create : CreateOutcome) : Except (Nat × String) (Bool × List String) :=
  if name ∈ world then
    Except.ok (false, world)
  else
    match create with
    | CreateOutcome.ok => Except.ok (true, name :: world)
    | CreateOutcome.conflict => Except.ok (false, name :: world)
    | CreateOutcome.err e => Except.error (500, "Failed to create bucket: " ++ e)

/-- The document-lookup loop of `delete_document` (lines 477-481): scan
`documents_store` in order and pop the first record whose `id` matches.
Documents here only need their `id` and `filename`, matching the fields the
endpoint reads. -/
structure StoredDoc where
  id : String
  filename : String
  deriving Repr, DecidableEq

/-- Pop the first document with the given id: `none` when no record
matches, otherwise the removed record and the remaining list. -/
def popFirst (docId : String) : List StoredDoc → Option (StoredDoc × List StoredDoc)
  | [] => none
  | d :: rest =>
    if d.id = docId then some (d, rest)
    else
      match popFirst docId rest with
      | none => none
      | some (x, l) => some (x, d :: l)

/-- `delete_document` (lines 472-491): 404 when the id is unknown (the
store untouched), otherwise remove exactly the first matching record and
report its filename.  Returns (result, store after the call). -/
def delete_document (store : List StoredDoc) (docId : String) :
    Except (Nat × String) String × List StoredDoc :=
  match popFirst docId store with
  | none => (Except.error (404, "Document not found"), store)
  | some (d, rest) => (Except.ok d.filename, rest)

end FastapiVertexRag

namespace App

/-!
Embedding of the two query modes of `src/app.py`.
-/

/-- A network call issued by the query functions of `app.py`. -/
inductive NetCall
  | retrievalQuery (corpus : String) (topK : Nat)
  | generateContent (model : String) (toolCorpora : List String)
      (systemInstruction : Option String)
  deriving Repr, DecidableEq

/-- Environment: outcome of the retrieval endpoint and of the generation
endpoint (the latter given the model, system instruction and query). -/
structure Env where
  retrieval : String → String → Nat → Except String String
  generation : String → Option String → String → Except String String

/-- `query_documents_direct` (lines 200-221): one `rag.retrieval_query`
call, no generation; an exception yields `(False, "Direct retrieval
failed: ...")`.  Returns ((success, text), network-call trace). -/
def query_documents_direct (env : Env) (corpusName query : String) (topK : Nat) :
    (Bool × String) × List NetCall :=
  match env.retrieval corpusName query topK with
  | Except.ok r => ((true, r), [NetCall.retrievalQuery corpusName topK])
  | Except.error e =>
    ((false, "Direct retrieval failed: " ++ e), [NetCall.retrievalQuery corpusName topK])

/-- `query_documents_enhanced` (lines 223-264): build a retrieval tool
bound to the corpus, attach it to a `GenerativeModel` (with the stripped
system prompt when non-empty), and call `generate_content` — the only
network call; an exception yields `(False, "Enhanced generation
failed: ...")`. -/
def query_documents_enhanced (env : Env) (corpusName query modelName : String)
    (systemPrompt : Option String) :
    (Bool × String) × List NetCall :=
  let sys : Option String :=
    match systemPrompt with
    | none => none
    | some s => if s.trim = "" then none else some s.trim
  match env.generation modelName sys query with
  | Except.ok t =>
    ((true, t), [NetCall.generateContent modelName [corpusName] sys])
  | Except.error e =>
    ((false, "Enhanced generation failed: " ++ e),
     [NetCall.generateContent modelName [corpusName] sys])

end App

namespace FastapiVertexRag

/-- Concrete fixture: every remote call succeeds except the corpus import
of the one locator `gs://b/documents/t_doc.pdf`, where `rag.import_files`
raises. -/
def envImportFails : Env :=
  { bucket := "b"
    ts := "t"
    bucketExists := true
    uploadErr := fun _ => none
    importErr := fun p =>
      if p = "gs://b/documents/t_doc.pdf" then some "ingestion backend unavailable" else none }

/-- Concrete fixture: every remote call succeeds. -/
def envAllOk : Env :=
  { bucket := "b"
    ts := "t"
    bucketExists := true
    uploadErr := fun _ => none
    importErr := fun _ => none }

/-- Concrete fixture: retrieval and generation calls both succeed. -/
def ragEnvOk : RagEnv :=
  { retrieval := fun _ _ _ _ => Except.ok ["ctx"]
    generation := fun _ _ => Except.ok "ans" }

/-- Concrete fixture: a one-document registry with an active corpus. -/
def stReady : AppState :=
  { documentsStore :=
      [{ filename := "notes.txt",
         fileSize := 7,
         fileType := "TXT",
         gcsPath := "gs://b/documents/t_notes.txt",
         corpusUpdated := true,
         error := none }]
    currentCorpus := some "corpus1"
    corpusInfo := some "rag_corpus" }

end FastapiVertexRag

namespace App

/-- Concrete fixture: retrieval and generation endpoints both succeed. -/
def envOk : Env :=
  { retrieval := fun _ _ _ => Except.ok "snippets"
    generation := fun _ _ _ => Except.ok "answer" }

end App

/-!
Theorems.  One theorem per claim of the frozen claim list, with witnesses
and counterexamples as needed; shared helper lemmas come first.
-/

namespace ProcessDocuments

/-- If some page of the PDF raises, the page loop propagates an error,
whatever text has been accumulated so far. -/
theorem pdf_pages_text_error_of_bad_page :
    ∀ (acc : String) (pages : List (Except String String)),
      (∃ p ∈ pages, p.isOk = false) →
      ∃ e, pdf_pages_text acc pages = Except.error e := by
  intro acc pages
  induction pages generalizing acc with
  | nil => rintro ⟨p, hp, _⟩; cases hp
  | cons p ps ih =>
    rintro ⟨q, hq, hbad⟩
    cases p with
    | error e => exact ⟨e, rfl⟩
    | ok t =>
      rcases List.mem_cons.mp hq with h | h
      · subst h; cases hbad
      · exact ih (acc ++ t ++ "\n") ⟨q, h, hbad⟩

/-- C2 counterexample: for the one-page PDF whose page extraction raises
`"boom"`, `extract_text_from_pdf` RETURNS the string
`"Error extracting PDF text: boom"` — a normal (non-raising) return whose
value is the error-message text — while the claimed contract demands the
call fail with an `ExtractionFailed` error and never return successfully. -/
theorem extract_pdf_returns_error_text_as_success :
    extract_text_from_pdf [Except.error "boom"] = "Error extracting PDF text: boom"
    ∧ extract_pdf_contract [Except.error "boom"] = Except.error "boom" := by
  exact ⟨rfl, rfl⟩

/-- C2 (amended): for every PDF input with a page whose extraction raises,
and for every DOCX input whose parse raises, the extractor catches the
exception and returns normally with the text
`"Error extracting PDF text: " ++ cause` (resp. DOCX); the error-message
string — not a failure — is what flows onward as the successful extraction
result, and both `process_file` and the standalone app's upload dispatch
upload exactly that error text as the document's content. -/
theorem extract_failure_returns_error_string_and_uploads_it :
    (∀ (pages : List (Except String String)), (∃ p ∈ pages, p.isOk = false) →
      ∃ e, pdf_pages_text "" pages = Except.error e
        ∧ extract_text_from_pdf pages = "Error extracting PDF text: " ++ e
        ∧ (∀ (path : String) (content : List Nat) (docxParas : Except String (List String)),
            lowerEndsWith path ".pdf" = true →
            process_file true path content pages docxParas
              = (true, some (BlobContent.text ("Error extracting PDF text: " ++ e))))
        ∧ (∀ (content : List Nat) (docxParas : Except String (List String)),
            StreamlitStandalone.content_to_upload true "application/pdf" content pages docxParas
              = some (BlobContent.text ("Error extracting PDF text: " ++ e))))
    ∧ (∀ cause : String,
        extract_text_from_docx (Except.error cause) = "Error extracting DOCX text: " ++ cause
        ∧ (∀ (path : String) (content : List Nat) (pdfPages : List (Except String String)),
            lowerEndsWith path ".pdf" = false →
            lowerEndsWith path ".docx" = true →
            process_file true path content pdfPages (Except.error cause)
              = (true, some (BlobContent.text ("Error extracting DOCX text: " ++ cause))))
        ∧ (∀ (content : List Nat) (pdfPages : List (Except String String)),
            StreamlitStandalone.content_to_upload true
                "application/vnd.openxmlformats-officedocument.wordprocessingml.document"
                content pdfPages (Except.error cause)
              = some (BlobContent.text ("Error extracting DOCX text: " ++ cause)))) := by
  constructor
  · intro pages h
    obtain ⟨e, he⟩ := pdf_pages_text_error_of_bad_page "" pages h
    have hext : extract_text_from_pdf pages = "Error extracting PDF text: " ++ e := by
      unfold extract_text_from_pdf
      rw [he]
    refine ⟨e, he, hext, ?_, ?_⟩
    · intro path content docxParas hp
      simp [process_file, hp, hext]
    · intro content docxParas
      simp [StreamlitStandalone.content_to_upload, hext]
  · intro cause
    refine ⟨rfl, ?_, ?_⟩
    · intro path content pdfPages h1 h2
      simp [process_file, h1, h2]
      rfl
    · intro content pdfPages
      simp [StreamlitStandalone.content_to_upload]
      rfl

/-- Witness for the amended C2 theorem at a concrete throwing page and a
concrete DOCX parse failure, with the uploaded blobs evaluated. -/
theorem extract_failure_returns_error_string_and_uploads_it_witness :
    (∃ p ∈ [Except.error "boom", Except.ok "page2"], Except.isOk p = false)
    ∧ (∃ e, pdf_pages_text "" [Except.error "boom", Except.ok "page2"] = Except.error e
        ∧ extract_text_from_pdf [Except.error "boom", Except.ok "page2"]
            = "Error extracting PDF text: " ++ e
        ∧ (∀ (path : String) (content : List Nat) (docxParas : Except String (List String)),
            lowerEndsWith path ".pdf" = true →
            process_file true path content [Except.error "boom", Except.ok "page2"] docxParas
              = (true, some (BlobContent.text ("Error extracting PDF text: " ++ e))))
        ∧ (∀ (content : List Nat) (docxParas : Except String (List String)),
            StreamlitStandalone.content_to_upload true "application/pdf" content
                [Except.error "boom", Except.ok "page2"] docxParas
              = some (BlobContent.text ("Error extracting PDF text: " ++ e))))
    ∧ (extract_text_from_docx (Except.error "boom") = "Error extracting DOCX text: " ++ "boom"
        ∧ (∀ (path : String) (content : List Nat) (pdfPages : List (Except String String)),
            lowerEndsWith path ".pdf" = false →
            lowerEndsWith path ".docx" = true →
            process_file true path content pdfPages (Except.error "boom")
              = (true, some (BlobContent.text ("Error extracting DOCX text: " ++ "boom"))))
        ∧ (∀ (content : List Nat) (pdfPages : List (Except String String)),
            StreamlitStandalone.content_to_upload true
                "application/vnd.openxmlformats-officedocument.wordprocessingml.document"
                content pdfPages (Except.error "boom")
              = some (BlobContent.text ("Error extracting DOCX text: " ++ "boom"))))
    ∧ process_file true "doc.pdf" [1] [Except.error "boom"] (Except.ok [])
        = (true, some (BlobContent.text "Error extracting PDF text: boom"))
    ∧ process_file true "doc.docx" [1] [] (Except.error "boom")
        = (true, some (BlobContent.text "Error extracting DOCX text: boom")) :=
  ⟨by decide,
   extract_failure_returns_error_string_and_uploads_it.1
     [Except.error "boom", Except.ok "page2"] (by decide),
   extract_failure_returns_error_string_and_uploads_it.2 "boom",
   by decide, by decide⟩

/-- C9: for txt and md files the pipeline is the identity on content: in
`process_file`, a path dispatched to the txt/md branch uploads the file's
raw bytes unchanged, and in the standalone app's upload dispatch every
non-PDF, non-DOCX mime type uploads `file_content` unchanged. -/
theorem txt_md_upload_is_identity :
    (∀ (avail : Bool) (path : String) (content : List Nat)
        (pdfPages : List (Except String String)) (docxParas : Except String (List String)),
      lowerEndsWith path ".pdf" = false →
      lowerEndsWith path ".docx" = false →
      (lowerEndsWith path ".txt" || lowerEndsWith path ".md") = true →
      process_file avail path content pdfPages docxParas = (true, some (BlobContent.raw content)))
    ∧ (∀ (avail : Bool) (mimeType : String) (content : List Nat)
        (pdfPages : List (Except String String)) (docxParas : Except String (List String)),
      mimeType ≠ "application/pdf" →
      mimeType ≠ "application/vnd.openxmlformats-officedocument.wordprocessingml.document" →
      StreamlitStandalone.content_to_upload avail mimeType content pdfPages docxParas
        = some (BlobContent.raw content)) := by
  constructor
  · intro avail path content pdfPages docxParas h1 h2 h3
    simp [process_file, h1, h2, h3]
  · intro avail mimeType content pdfPages docxParas h1 h2
    simp [StreamlitStandalone.content_to_upload, h1, h2]

/-- Witness for C9 at concrete txt inputs. -/
theorem txt_md_upload_is_identity_witness :
    (lowerEndsWith "notes.txt" ".pdf" = false
      ∧ lowerEndsWith "notes.txt" ".docx" = false
      ∧ (lowerEndsWith "notes.txt" ".txt" || lowerEndsWith "notes.txt" ".md") = true
      ∧ process_file true "notes.txt" [65, 66, 67] [] (Except.ok [])
          = (true, some (BlobContent.raw [65, 66, 67])))
    ∧ ("text/plain" ≠ "application/pdf"
      ∧ StreamlitStandalone.content_to_upload true "text/plain" [65, 66, 67] [] (Except.ok [])
          = some (BlobContent.raw [65, 66, 67])) :=
  ⟨⟨by decide, by decide, by decide,
    txt_md_upload_is_identity.1 true "notes.txt" [65, 66, 67] [] (Except.ok [])
      (by decide) (by decide) (by decide)⟩,
   ⟨by decide,
    txt_md_upload_is_identity.2 true "text/plain" [65, 66, 67] [] (Except.ok [])
      (by decide) (by decide)⟩⟩

end ProcessDocuments

namespace CreateRagCorpus

/-- Every batch handed to the loop is submitted, whatever the per-batch
outcomes: a failing `rag.import_files` call is caught and the loop
`continue`s. -/
theorem importLoop_submits (ok : Nat → Bool) :
    ∀ (k : Nat) (bs : List (List String)), (importLoop ok k bs).1 = bs := by
  intro k bs
  induction bs generalizing k with
  | nil => rfl
  | cons b rest ih => simp [importLoop, ih]

/-- The k-th batch is the slice `paths[25*k : 25*k + 25]`. -/
theorem importBatches_getD (paths : List String) (k : Nat)
    (hk : k < (importBatches paths 25).length) :
    (importBatches paths 25).getD k [] = (paths.drop (k * 25)).take 25 := by
  have hk2 : k < (paths.length + 24) / 25 := by
    simp [importBatches] at hk
    omega
  simp [importBatches, List.getD_eq_getElem?_getD, List.getElem?_map, List.getElem?_range, hk2]

/-- C4: slicing a list of locators with batch size 25 yields exactly
`ceil(N/25)` batches; the k-th batch is the k-th 25-element slice in order,
every non-final batch has 25 elements and the final one has `N mod 25`
elements (25 when 25 divides N); and the loop submits every batch whatever
the per-batch import outcomes, so one failing batch never prevents the
submission of the following ones. -/
theorem import_batching_spec (paths : List String) (ok : Nat → Bool) (hne : paths ≠ []) :
    (importBatches paths 25).length = (paths.length + 24) / 25
    ∧ (∀ k, k < (importBatches paths 25).length →
        (importBatches paths 25).getD k [] = (paths.drop (k * 25)).take 25)
    ∧ (∀ k, k + 1 < (importBatches paths 25).length →
        ((importBatches paths 25).getD k []).length = 25)
    ∧ ((importBatches paths 25).getD ((importBatches paths 25).length - 1) []).length
        = (if paths.length % 25 = 0 then 25 else paths.length % 25)
    ∧ (runImport paths ok).1 = importBatches paths 25 := by
  have hlen : (importBatches paths 25).length = (paths.length + 24) / 25 := by
    simp [importBatches]
  have hpos : 0 < paths.length := List.length_pos.mpr hne
  refine ⟨hlen, importBatches_getD paths, ?_, ?_, ?_⟩
  · intro k hk
    rw [importBatches_getD paths k (by omega)]
    simp only [List.length_take, List.length_drop]
    rw [hlen] at hk
    omega
  · have hk : (importBatches paths 25).length - 1 < (importBatches paths 25).length := by
      rw [hlen]; omega
    rw [importBatches_getD paths _ hk, hlen]
    simp only [List.length_take, List.length_drop]
    split <;> omega
  · exact importLoop_submits ok 0 (importBatches paths 25)

/-- Witness for C4 at the concrete 57-locator input of the claim, with the
failing import of batch number 1 (the second batch): the batch sizes are
exactly [25, 25, 7], all three batches are submitted, and the other two
batches still import (total 32 files). -/
theorem import_batching_spec_witness :
    (List.replicate 57 "doc" ≠ [])
    ∧ ((importBatches (List.replicate 57 "doc") 25).length
          = ((List.replicate 57 "doc").length + 24) / 25
      ∧ (∀ k, k < (importBatches (List.replicate 57 "doc") 25).length →
          (importBatches (List.replicate 57 "doc") 25).getD k []
            = ((List.replicate 57 "doc").drop (k * 25)).take 25)
      ∧ (∀ k, k + 1 < (importBatches (List.replicate 57 "doc") 25).length →
          ((importBatches (List.replicate 57 "doc") 25).getD k []).length = 25)
      ∧ ((importBatches (List.replicate 57 "doc") 25).getD
            ((importBatches (List.replicate 57 "doc") 25).length - 1) []).length
          = (if (List.replicate 57 "doc").length % 25 = 0 then 25
             else (List.replicate 57 "doc").length % 25)
      ∧ (runImport (List.replicate 57 "doc") (fun k => k != 1)).1
          = importBatches (List.replicate 57 "doc") 25)
    ∧ (importBatches (List.replicate 57 "doc") 25).map List.length = [25, 25, 7]
    ∧ (runImport (List.replicate 57 "doc") (fun k => k != 1)).2 = 32 :=
  ⟨by decide,
   import_batching_spec (List.replicate 57 "doc") (fun k => k != 1) (by decide),
   by decide, by decide⟩

end CreateRagCorpus

namespace FastapiVertexRag

/-- C1 (code bug evidence): a single-file upload whose object-store upload
succeeds but whose `rag.import_files` call raises.
`import_document_to_corpus` returns `False` for that locator, yet
`upload_documents` binds the result to `import_result`, ignores it, and
reports the document with `corpus_updated: True` and no error field — the
`except` branch that would mark `corpus_updated: False` is unreachable
because `import_document_to_corpus` catches every exception itself. -/
theorem upload_marks_failed_import_as_indexed :
    import_document_to_corpus (envImportFails.importErr (gcsPath envImportFails "doc.pdf")) = false
    ∧ upload_documents envImportFails [{ filename := "doc.pdf", size := 4 }]
        = Except.ok
            { message := "Successfully processed 1 file(s)"
              uploadedFiles :=
                [{ filename := "doc.pdf",
                   fileSize := 4,
                   fileType := "PDF",
                   gcsPath := "gs://b/documents/t_doc.pdf",
                   corpusUpdated := true,
                   error := none }]
              bucketCreated := false
              corpusUpdated := true } := by
  exact ⟨by decide, by rfl⟩

/-- C3 counterexample: a two-file batch whose first file has an unsupported
extension.  The whole request aborts with one `HTTPException(400, ...)`:
the valid second file `notes.txt` is never processed and gets no
independently reported outcome. -/
theorem unsupported_file_aborts_whole_batch :
    upload_documents envAllOk
        [{ filename := "report.xyz", size := 5 }, { filename := "notes.txt", size := 7 }]
      = Except.error (400, "Unsupported file type: .xyz. Supported types: .pdf, .docx, .txt, .md") := by
  rfl

/-- When every file of the batch has a supported extension, nonzero size
and a succeeding upload, the loop reaches the import step for each file and
never raises, whatever the corpus-import outcomes. -/
theorem processFiles_ok_of_valid (env : Env) :
    ∀ files : List InFile,
      (∀ f ∈ files, fileExt f.filename ∈ [".pdf", ".docx", ".txt", ".md"]) →
      (∀ f ∈ files, f.size ≠ 0) →
      (∀ f ∈ files, env.uploadErr f.filename = none) →
      ∃ out, processFiles env files = Except.ok out
        ∧ out.1.map DocRecord.filename = files.map InFile.filename := by
  intro files
  induction files with
  | nil => exact fun _ _ _ => ⟨([], false), rfl, rfl⟩
  | cons f rest ih =>
    intro h1 h2 h3
    obtain ⟨⟨recs, cu⟩, hrec, hmap⟩ :=
      ih (fun g hg => h1 g (List.mem_cons_of_mem f hg))
        (fun g hg => h2 g (List.mem_cons_of_mem f hg))
        (fun g hg => h3 g (List.mem_cons_of_mem f hg))
    have hext : fileExt f.filename ∈ [".pdf", ".docx", ".txt", ".md"] :=
      h1 f (List.mem_cons_self f rest)
    have hsize : f.size ≠ 0 := h2 f (List.mem_cons_self f rest)
    have hupl : env.uploadErr f.filename = none := h3 f (List.mem_cons_self f rest)
    refine ⟨({ filename := f.filename,
               fileSize := f.size,
               fileType := extUpper (fileExt f.filename),
               gcsPath := gcsPath env f.filename,
               corpusUpdated := true,
               error := none } :: recs, true), ?_, ?_⟩
    · simp [processFiles, hext, hsize, hupl, hrec]
    · simp [hmap]

/-- C3 (amended): a corpus-ingestion failure for one file does not abort
the processing of its siblings — for a batch of supported, non-empty files
whose uploads succeed, every file appears in the reported result whatever
the per-file import outcomes; but an unsupported file type, an empty file
or an upload failure raises and aborts the whole request (see the
counterexample), so only ingestion failures are recovered per-file. -/
theorem import_failure_does_not_abort_batch (env : Env) (files : List InFile)
    (h1 : ∀ f ∈ files, fileExt f.filename ∈ [".pdf", ".docx", ".txt", ".md"])
    (h2 : ∀ f ∈ files, f.size ≠ 0)
    (h3 : ∀ f ∈ files, env.uploadErr f.filename = none) :
    ∃ resp, upload_documents env files = Except.ok resp
      ∧ resp.uploadedFiles.map DocRecord.filename = files.map InFile.filename := by
  obtain ⟨⟨recs, cu⟩, hrec, hmap⟩ := processFiles_ok_of_valid env files h1 h2 h3
  refine ⟨{ message := "Successfully processed " ++ toString recs.length ++ " file(s)",
            uploadedFiles := recs,
            bucketCreated := !env.bucketExists,
            corpusUpdated := cu }, ?_, hmap⟩
  unfold upload_documents
  rw [hrec]

/-- Witness for the amended C3 theorem: a two-file batch where the first
file's corpus import fails; both files are reported. -/
theorem import_failure_does_not_abort_batch_witness :
    (∀ f ∈ [({ filename := "doc.pdf", size := 4 } : InFile),
              { filename := "notes.txt", size := 7 }],
        fileExt f.filename ∈ [".pdf", ".docx", ".txt", ".md"])
    ∧ (∀ f ∈ [({ filename := "doc.pdf", size := 4 } : InFile),
              { filename := "notes.txt", size := 7 }], f.size ≠ 0)
    ∧ (∀ f ∈ [({ filename := "doc.pdf", size := 4 } : InFile),
              { filename := "notes.txt", size := 7 }],
        envImportFails.uploadErr f.filename = none)
    ∧ ∃ resp, upload_documents envImportFails
          [{ filename := "doc.pdf", size := 4 }, { filename := "notes.txt", size := 7 }]
        = Except.ok resp
      ∧ resp.uploadedFiles.map DocRecord.filename = ["doc.pdf", "notes.txt"] :=
  ⟨by decide, by decide, by decide,
   import_failure_does_not_abort_batch envImportFails
     [{ filename := "doc.pdf", size := 4 }, { filename := "notes.txt", size := 7 }]
     (by decide) (by decide) (by decide)⟩

/-- C5 counterexample: with an active corpus and a non-empty registry, a
query with `top_k = 0` (and likewise `top_k = 11`) is NOT rejected: the
retrieval and generation network calls are issued with the out-of-range
value passed through, and the request succeeds. -/
theorem out_of_range_top_k_reaches_network :
    (query_documents ragEnvOk stReady { query := "q", topK := 0, distanceThreshold := 1/2 }).2.1
      = [NetCall.retrievalQuery "corpus1" 0 (1/2), NetCall.generateContent "corpus1"]
    ∧ (query_documents ragEnvOk stReady { query := "q", topK := 0, distanceThreshold := 1/2 }).1
      = Except.ok { query := "q",
                    answer := "ans",
                    retrievalResults := ["ctx"],
                    corpusUsed := "corpus1" }
    ∧ (query_documents ragEnvOk stReady { query := "q", topK := 11, distanceThreshold := 1/2 }).2.1
      = [NetCall.retrievalQuery "corpus1" 11 (1/2), NetCall.generateContent "corpus1"] := by
  exact ⟨rfl, rfl, rfl⟩

/-- C5 (amended): the backend performs no bounds validation on `top_k`
(`QueryRequest` declares it a plain optional int).  Whenever a corpus is
active and the registry non-empty, the request — whatever its `top_k`,
including 0 and values above 10 — proceeds to the network: the trace is
exactly that of `perform_rag_query` and starts with a retrieval call
carrying `top_k` unchanged.  The only pre-network rejections are the
missing-corpus and empty-registry 400s. -/
theorem top_k_passed_through_unvalidated
    (env : RagEnv) (st : AppState) (req : QueryRequest) (corpus : String)
    (hc : st.currentCorpus = some corpus) (hs : st.documentsStore ≠ []) :
    (query_documents env st req).2.1
      = (perform_rag_query env corpus req.query req.topK req.distanceThreshold).2
    ∧ ∃ rest, (query_documents env st req).2.1
      = NetCall.retrievalQuery corpus req.topK req.distanceThreshold :: rest := by
  cases hr : env.retrieval corpus req.query req.topK req.distanceThreshold with
  | error e =>
    constructor
    · simp [query_documents, perform_rag_query, hc, hs, hr]
    · exact ⟨[], by simp [query_documents, perform_rag_query, hc, hs, hr]⟩
  | ok ctxs =>
    cases hg : env.generation corpus req.query with
    | error e =>
      constructor
      · simp [query_documents, perform_rag_query, hc, hs, hr, hg]
      · exact ⟨[NetCall.generateContent corpus],
          by simp [query_documents, perform_rag_query, hc, hs, hr, hg]⟩
    | ok ans =>
      constructor
      · simp [query_documents, perform_rag_query, hc, hs, hr, hg]
      · exact ⟨[NetCall.generateContent corpus],
          by simp [query_documents, perform_rag_query, hc, hs, hr, hg]⟩

/-- Witness for the amended C5 theorem at `top_k = 11`. -/
theorem top_k_passed_through_unvalidated_witness :
    stReady.currentCorpus = some "corpus1"
    ∧ stReady.documentsStore ≠ []
    ∧ ((query_documents ragEnvOk stReady
          { query := "q", topK := 11, distanceThreshold := 1/2 }).2.1
        = (perform_rag_query ragEnvOk "corpus1" "q" 11 (1/2)).2
      ∧ ∃ rest, (query_documents ragEnvOk stReady
          { query := "q", topK := 11, distanceThreshold := 1/2 }).2.1
        = NetCall.retrievalQuery "corpus1" 11 (1/2) :: rest) :=
  ⟨rfl, by decide,
   top_k_passed_through_unvalidated ragEnvOk stReady
     { query := "q", topK := 11, distanceThreshold := 1/2 } "corpus1" rfl (by decide)⟩

/-- C6: `create_bucket_if_not_exists` is an idempotent create-if-absent.
After any successful first call for a name, a second call for the same name
reports that the bucket already exists (`False`) and never raises, whatever
the create outcome parameter of the second call; and a `Conflict` raised
because another caller created the bucket concurrently is itself treated as
"already exists" (`False`), not as an error. -/
theorem create_bucket_idempotent :
    (∀ (world : List String) (name : String) (c1 c2 : CreateOutcome)
        (r : Bool) (world1 : List String),
      create_bucket_if_not_exists world name c1 = Except.ok (r, world1) →
      create_bucket_if_not_exists world1 name c2 = Except.ok (false, world1))
    ∧ (∀ (world : List String) (name : String), name ∉ world →
      create_bucket_if_not_exists world name CreateOutcome.conflict
        = Except.ok (false, name :: world)) := by
  constructor
  · intro world name c1 c2 r world1 h
    have hmem : name ∈ world1 := by
      by_cases hw : name ∈ world
      · simp only [create_bucket_if_not_exists, if_pos hw] at h
        obtain ⟨-, hw1⟩ := Prod.mk.injEq .. ▸ Except.ok.inj h
        exact hw1 ▸ hw
      · cases c1 with
        | ok =>
          simp only [create_bucket_if_not_exists, if_neg hw] at h
          obtain ⟨-, hw1⟩ := Prod.mk.injEq .. ▸ Except.ok.inj h
          exact hw1 ▸ List.mem_cons_self name world
        | conflict =>
          simp only [create_bucket_if_not_exists, if_neg hw] at h
          obtain ⟨-, hw1⟩ := Prod.mk.injEq .. ▸ Except.ok.inj h
          exact hw1 ▸ List.mem_cons_self name world
        | err e =>
          simp [create_bucket_if_not_exists, if_neg hw] at h
    simp [create_bucket_if_not_exists, hmem]
  · intro world name hw
    simp [create_bucket_if_not_exists, hw]

/-- Witness for C6: create `b` in an empty world, then call again (here
with a second-call create outcome that would be a hard error, showing the
second call still cannot raise); and the concurrent-creation conflict case
on a fresh name. -/
theorem create_bucket_idempotent_witness :
    create_bucket_if_not_exists [] "b" CreateOutcome.ok = Except.ok (true, ["b"])
    ∧ create_bucket_if_not_exists ["b"] "b" (CreateOutcome.err "boom") = Except.ok (false, ["b"])
    ∧ "b" ∉ ([] : List String)
    ∧ create_bucket_if_not_exists [] "b" CreateOutcome.conflict = Except.ok (false, ["b"]) :=
  ⟨by rfl,
   create_bucket_idempotent.1 [] "b" CreateOutcome.ok (CreateOutcome.err "boom") true ["b"]
     (by rfl),
   by decide,
   create_bucket_idempotent.2 [] "b" (by decide)⟩

/-- C8 helper: when no stored document has the id, the scan finds
nothing. -/
theorem popFirst_of_not_mem (docId : String) :
    ∀ store : List StoredDoc, docId ∉ store.map StoredDoc.id →
      popFirst docId store = none := by
  intro store
  induction store with
  | nil => intro _; rfl
  | cons d rest ih =>
    intro h
    have h2 : ¬ (docId = d.id ∨ docId ∈ rest.map StoredDoc.id) := by
      simpa [List.mem_cons] using h
    push_neg at h2
    have hd : d.id ≠ docId := fun he => h2.1 he.symm
    simp [popFirst, hd, ih h2.2]

/-- C8 helper: when some stored document has the id, the scan pops exactly
the first such record. -/
theorem popFirst_of_mem (docId : String) :
    ∀ store : List StoredDoc, docId ∈ store.map StoredDoc.id →
      ∃ pre d post,
        store = pre ++ d :: post
        ∧ d.id = docId
        ∧ (∀ x ∈ pre, x.id ≠ docId)
        ∧ popFirst docId store = some (d, pre ++ post) := by
  intro store
  induction store with
  | nil => intro h; cases h
  | cons d rest ih =>
    intro h
    by_cases hd : d.id = docId
    · exact ⟨[], d, rest, rfl, hd, by simp, by simp [popFirst, hd]⟩
    · have hrest : docId ∈ rest.map StoredDoc.id := by
        rcases List.mem_cons.mp h with he | he
        · exact absurd he.symm hd
        · exact he
      obtain ⟨pre, x, post, heq, hid, hpre, hpop⟩ := ih hrest
      refine ⟨d :: pre, x, post, by rw [heq]; rfl, hid, ?_, ?_⟩
      · intro y hy
        rcases List.mem_cons.mp hy with hy | hy
        · exact hy ▸ hd
        · exact hpre y hy
      · simp [popFirst, hd, hpop]

/-- C8: `DELETE /documents/{id}` with an unknown id returns 404 and leaves
the registry exactly as it was; with a known id it removes precisely the
first record carrying that id (reporting its filename) and the registry
shrinks by exactly one. -/
theorem delete_document_spec (store : List StoredDoc) (docId : String) :
    (docId ∉ store.map StoredDoc.id →
      delete_document store docId = (Except.error (404, "Document not found"), store))
    ∧ (docId ∈ store.map StoredDoc.id →
      ∃ pre d post,
        store = pre ++ d :: post
        ∧ d.id = docId
        ∧ (∀ x ∈ pre, x.id ≠ docId)
        ∧ delete_document store docId = (Except.ok d.filename, pre ++ post)
        ∧ (pre ++ post).length + 1 = store.length) := by
  constructor
  · intro h
    unfold delete_document
    rw [popFirst_of_not_mem docId store h]
  · intro h
    obtain ⟨pre, d, post, heq, hid, hpre, hpop⟩ := popFirst_of_mem docId store h
    refine ⟨pre, d, post, heq, hid, hpre, ?_, ?_⟩
    · unfold delete_document
      rw [hpop]
    · subst heq
      simp [List.length_append]
      omega

/-- Witness for C8 on a concrete two-document registry: an unknown id
yields 404 with the registry untouched; a known id removes exactly that
document. -/
theorem delete_document_spec_witness :
    ("zzz" ∉ ([⟨"id1", "a.txt"⟩, ⟨"id2", "b.txt"⟩] : List StoredDoc).map StoredDoc.id
      ∧ delete_document [⟨"id1", "a.txt"⟩, ⟨"id2", "b.txt"⟩] "zzz"
          = (Except.error (404, "Document not found"), [⟨"id1", "a.txt"⟩, ⟨"id2", "b.txt"⟩]))
    ∧ ("id2" ∈ ([⟨"id1", "a.txt"⟩, ⟨"id2", "b.txt"⟩] : List StoredDoc).map StoredDoc.id
      ∧ ∃ pre d post,
          ([⟨"id1", "a.txt"⟩, ⟨"id2", "b.txt"⟩] : List StoredDoc) = pre ++ d :: post
          ∧ d.id = "id2"
          ∧ (∀ x ∈ pre, x.id ≠ "id2")
          ∧ delete_document [⟨"id1", "a.txt"⟩, ⟨"id2", "b.txt"⟩] "id2"
              = (Except.ok d.filename, pre ++ post)
          ∧ (pre ++ post).length + 1
              = ([⟨"id1", "a.txt"⟩, ⟨"id2", "b.txt"⟩] : List StoredDoc).length) :=
  ⟨⟨by decide,
    (delete_document_spec [⟨"id1", "a.txt"⟩, ⟨"id2", "b.txt"⟩] "zzz").1 (by decide)⟩,
   ⟨by decide,
    (delete_document_spec [⟨"id1", "a.txt"⟩, ⟨"id2", "b.txt"⟩] "id2").2 (by decide)⟩⟩

/-- C10: when no corpus has been created or the document registry is
empty, `POST /query` returns HTTP 400, issues no network call at all, and
leaves the process state (registry, current corpus, corpus info) exactly as
it was. -/
theorem query_rejected_before_network_when_state_empty
    (env : RagEnv) (st : AppState) (req : QueryRequest)
    (h : st.currentCorpus = none ∨ st.documentsStore = []) :
    ∃ m, query_documents env st req = (Except.error (400, m), [], st) := by
  rcases h with h | h
  · exact ⟨"No corpus available. Please upload documents first.", by simp [query_documents, h]⟩
  · cases hc : st.currentCorpus with
    | none =>
      exact ⟨"No corpus available. Please upload documents first.",
        by simp [query_documents, hc]⟩
    | some c =>
      exact ⟨"No documents uploaded yet", by simp [query_documents, hc, h]⟩

/-- Witness for C10 on the empty initial state. -/
theorem query_rejected_before_network_when_state_empty_witness :
    (({ documentsStore := [], currentCorpus := none, corpusInfo := none } : AppState).currentCorpus
        = none
      ∨ ({ documentsStore := [], currentCorpus := none, corpusInfo := none } : AppState).documentsStore
        = [])
    ∧ ∃ m, query_documents ragEnvOk
        { documentsStore := [], currentCorpus := none, corpusInfo := none }
        { query := "q", topK := 3, distanceThreshold := 1/2 }
      = (Except.error (400, m), [],
         { documentsStore := [], currentCorpus := none, corpusInfo := none }) :=
  ⟨Or.inl rfl,
   query_rejected_before_network_when_state_empty ragEnvOk
     { documentsStore := [], currentCorpus := none, corpusInfo := none }
     { query := "q", topK := 3, distanceThreshold := 1/2 } (Or.inl rfl)⟩

end FastapiVertexRag

namespace App

/-- C7: for every environment and every input, the direct-retrieval mode
issues exactly one network call — the retrieval query — and never a
generation call; the enhanced mode always issues a generation call whose
model carries the retrieval tool bound to the corpus. -/
theorem direct_never_generates_enhanced_always_generates :
    ∀ (env : Env) (corpusName query modelName : String) (topK : Nat)
      (sysPrompt : Option String),
      (query_documents_direct env corpusName query topK).2
        = [NetCall.retrievalQuery corpusName topK]
      ∧ (∀ c ∈ (query_documents_direct env corpusName query topK).2,
          ∀ m tc si, c ≠ NetCall.generateContent m tc si)
      ∧ (∃ si, (query_documents_enhanced env corpusName query modelName sysPrompt).2
          = [NetCall.generateContent modelName [corpusName] si]) := by
  intro env corpusName query modelName topK sysPrompt
  have hdir : (query_documents_direct env corpusName query topK).2
      = [NetCall.retrievalQuery corpusName topK] := by
    cases hr : env.retrieval corpusName query topK <;>
      simp [query_documents_direct, hr]
  refine ⟨hdir, ?_, ?_⟩
  · intro c hc m tc si
    rw [hdir] at hc
    rcases List.mem_singleton.mp hc with rfl
    intro he
    cases he
  · refine ⟨(match sysPrompt with
        | none => none
        | some s => if s.trim = "" then none else some s.trim), ?_⟩
    unfold query_documents_enhanced
    cases hg : env.generation modelName
        (match sysPrompt with
          | none => none
          | some s => if s.trim = "" then none else some s.trim) query <;>
      simp [hg]

/-- Witness for C7 at concrete inputs. -/
theorem direct_never_generates_enhanced_always_generates_witness :
    (query_documents_direct envOk "corpus1" "q" 5).2
        = [NetCall.retrievalQuery "corpus1" 5]
      ∧ (∀ c ∈ (query_documents_direct envOk "corpus1" "q" 5).2,
          ∀ m tc si, c ≠ NetCall.generateContent m tc si)
      ∧ (∃ si, (query_documents_enhanced envOk "corpus1" "q" "gemini-2.0-flash-001"
            (some " be concise ")).2
          = [NetCall.generateContent "gemini-2.0-flash-001" ["corpus1"] si]) :=
  direct_never_generates_enhanced_always_generates envOk "corpus1" "q"
    "gemini-2.0-flash-001" 5 (some " be concise ")

end App
